import Mathlib

/-!
Verification of the download-attempt supervisor in `ytdpl.py`.

The definitions below are a shallow embedding of the control logic of the
script: the per-line output classifier, the streaming loop with its
mid-stream kill switch, the credential-rotation policy, the retry loop of
`download_video_direct` / `download_audio_direct` / `download_subtitles_direct`,
the artifact diff over directory snapshots, the chromium-profile round-robin
pool, and the cookie inspector.  Filesystem and process effects are made
explicit: the lines a child process would emit, its exit code and the
directory contents after the attempt are inputs, and side effects such as
terminating the child or opening the intervention browser are recorded in
event traces / counters.
-/

/-- Substring test on character lists: does the second list start with the first? -/
def charsBeginWith : List Char → List Char → Bool
  | [], _ => true
  | _ :: _, [] => false
  | c :: cs, d :: ds => c == d && charsBeginWith cs ds

/-- Does the second list contain the first as a contiguous run? -/
def charsContain (needle : List Char) : List Char → Bool
  | [] => needle.isEmpty
  | c :: t => charsBeginWith needle (c :: t) || charsContain needle t

/-- `needle in haystack` on strings (Python's `in` operator). -/
def strContains (haystack needle : String) : Bool :=
  charsContain needle.toList haystack.toList

/-- ASCII lowercasing of one character, as `Char.toLower` does (Python's
`str.lower()` restricted to the ASCII range, which covers every keyword the
code matches against). -/
def lowerChar (c : Char) : Char :=
  if 'A' ≤ c && c ≤ 'Z' then Char.ofNat (c.toNat + 32) else c

/-- `s.lower()` on a line of output (ASCII range). -/
def lowerStr (s : String) : String :=
  String.mk (s.toList.map lowerChar)

/-- The rate-limit phrase checked against each streamed line (ytdpl.py line 315). -/
def rate_limit_phrase : String := "rate-limited by youtube"

/-- The error marker required for a mid-stream hard-block detection (line 319). -/
def error_marker : String := "error:"

/-- The fixed block/CAPTCHA phrase set (lines 319, 348). -/
def hard_block_keywords : List String :=
  ["sign in to confirm", "not a bot", "captcha", "verify you are human", "403 forbidden"]

/-- The privacy/login/age-restriction phrase set used by the attempt-0 early exit (line 344). -/
def privacy_keywords : List String :=
  ["sign in", "private", "age-restricted", "login", "members-only"]

/-- Line 315: the streamed line (lowercased) contains the rate-limit phrase. -/
def isRateLimitLine (line : String) : Bool :=
  strContains (lowerStr line) rate_limit_phrase

/-- Line 319: the streamed line (lowercased) contains the error marker and a block phrase. -/
def isHardBlockLine (line : String) : Bool :=
  strContains (lowerStr line) error_marker &&
    hard_block_keywords.any (fun k => strContains (lowerStr line) k)

/-- The per-line classification signal of the spec's Output Classifier. -/
inductive ClassificationSignal
  | RateLimited
  | HardBlocked
  | Normal
deriving DecidableEq, Repr

/-- Single-signal classification of one streamed line, in the order the code
tests the patterns (rate-limit check at line 315 runs before the hard-block
check at line 319). -/
def classify (line : String) : ClassificationSignal :=
  if isRateLimitLine line then ClassificationSignal.RateLimited
  else if isHardBlockLine line then ClassificationSignal.HardBlocked
  else ClassificationSignal.Normal

/-- Observable events of the streaming loop (lines 309-323). -/
inductive StreamEvent
  | ReadLine (line : String)
  | RateLimitPause
  | Terminate
deriving DecidableEq, Repr

/-- Events produced for one line before the hard-block test: the line is read
(echoed and appended), then the rate-limit pause fires if it matches. -/
def lineEvents (l : String) : List StreamEvent :=
  StreamEvent.ReadLine l ::
    (if isRateLimitLine l then [StreamEvent.RateLimitPause] else [])

/-- Result of consuming the child's output stream. -/
structure StreamResult where
  captured : List String
  killed : Bool
  trace : List StreamEvent
deriving DecidableEq, Repr

/-- The streaming loop of lines 309-323: read lines in order, pause on a
rate-limit line, and on the first hard-block line terminate the child, set
`killed_by_block` and break out without reading further lines. -/
def processStream : List String → StreamResult
  | [] => { captured := [], killed := false, trace := [] }
  | l :: rest =>
    if isHardBlockLine l then
      { captured := [l], killed := true, trace := lineEvents l ++ [StreamEvent.Terminate] }
    else
      let r := processStream rest
      { captured := l :: r.captured, killed := r.killed, trace := lineEvents l ++ r.trace }

/-- The lines read from the child, in order, as recorded in a trace. -/
def readsOf (tr : List StreamEvent) : List String :=
  tr.filterMap (fun e =>
    match e with
    | StreamEvent.ReadLine s => some s
    | _ => none)

/-- Is an event a read of a line from the child's stream? -/
def isReadEvent : StreamEvent → Bool
  | StreamEvent.ReadLine _ => true
  | _ => false

/-- No line is read from the stream after the first termination request. -/
def noReadAfterTerminate : List StreamEvent → Bool
  | [] => true
  | StreamEvent.Terminate :: rest => !(rest.any isReadEvent)
  | _ :: rest => noReadAfterTerminate rest

/-- A file as seen by the directory snapshots: its path and modification time. -/
structure MediaFile where
  name : String
  mtime : Nat
deriving DecidableEq, Repr

/-- Python `Path.suffix`: the text from the last dot of the name onward, provided
that dot is neither the first nor the last character; empty otherwise. -/
def lastIdxOf (c : Char) : List Char → Option Nat
  | [] => none
  | d :: t =>
    match lastIdxOf c t with
    | some i => some (i + 1)
    | none => if d == c then some 0 else none

/-- The extension (with leading dot) of a file name, per Python's `Path.suffix`. -/
def suffixOf (name : String) : String :=
  let cs := name.toList
  match lastIdxOf '.' cs with
  | none => ""
  | some i => if 0 < i && i + 1 < cs.length then String.mk (cs.drop i) else ""

/-- Ordering of files by modification time (the sort key at line 334). -/
def mtimeLE (a b : MediaFile) : Prop := a.mtime ≤ b.mtime

instance : DecidableRel mtimeLE := fun a b => Nat.decLe a.mtime b.mtime

instance : IsTotal MediaFile mtimeLE := ⟨fun a b => Nat.le_total a.mtime b.mtime⟩

instance : IsTrans MediaFile mtimeLE := ⟨fun _ _ _ h1 h2 => Nat.le_trans h1 h2⟩

/-- Artifact resolution of lines 330-334: the files of the current snapshot
that were not in the baseline snapshot (set difference of paths), restricted
to the extension filter (lowercased suffix), sorted by modification time
ascending (Python's in-place stable sort, modelled by a stable insertion sort). -/
def resolveArtifacts (existing current : List MediaFile) (exts : List String) : List MediaFile :=
  let existingNames := existing.map (fun f => f.name)
  let newFiles := current.filter (fun f => !(existingNames.contains f.name))
  let matching := newFiles.filter (fun f => exts.contains (lowerStr (suffixOf f.name)))
  List.insertionSort mtimeLE matching

/-- The extension filter of `download_video_direct` (line 332). -/
def video_exts : List String := [".mp4", ".mkv", ".webm", ".flv", ".mov"]

/-- The extension filter of `download_audio_direct` (line 420). -/
def audio_exts : List String := [".mp3"]

/-- The platform detected from the URL (`detect_platform`, lines 219-223). -/
inductive Platform
  | YouTube
  | TikTok
  | Desconocida
deriving DecidableEq, Repr

/-- The credential decision and the arguments it adds to the command
(lines 287-299, repeated verbatim in the audio and subtitle paths). -/
structure CookiePlan where
  useCookies : Bool
  cookiesArg : Option String
  clientArgs : Option String
deriving DecidableEq, Repr

/-- Lines 287-299: TikTok always uses cookies; YouTube uses cookies only when
`attempt > 0`; with cookies YouTube gets the downgraded tv client, anonymous
YouTube gets the android/tv client.  `profile` is the pool's answer, always a
non-empty path, so the code's `if profile:` guard always passes. -/
def planCredentials (platform : Platform) (attempt : Nat) (profile : String) : CookiePlan :=
  let uc := platform == Platform.TikTok || (platform == Platform.YouTube && 0 < attempt)
  if uc then
    { useCookies := true
      cookiesArg := some ("chromium:" ++ profile ++ "/chromium")
      clientArgs :=
        if platform == Platform.YouTube then some "youtube:player_client=tv_downgraded,web"
        else none }
  else
    { useCookies := false
      cookiesArg := none
      clientArgs :=
        if platform == Platform.YouTube then some "youtube:player_client=android,tv"
        else none }

/-- Everything one attempt observes about the external world: the lines the
child would emit, its exit status, and the directory contents afterwards. -/
structure AttemptRun where
  lines : List String
  exitCode : Int
  currentFiles : List MediaFile
deriving DecidableEq, Repr

/-- `output.lower()` of line 341: the captured lines joined. -/
def capturedOutput (run : AttemptRun) : String :=
  String.join (processStream run.lines).captured

/-- Line 344: does the captured output contain a privacy/login phrase? -/
def privacyHit (s : String) : Bool :=
  privacy_keywords.any (fun k => strContains (lowerStr s) k)

/-- Line 348: does the captured output contain a hard-block phrase? -/
def hardBlockHit (s : String) : Bool :=
  hard_block_keywords.any (fun k => strContains (lowerStr s) k)

/-- The decision taken after one attempt of the video/audio loop. -/
inductive NextAction
  | ReturnFiles (files : List String)
  | ContinueNoGate
  | GateThenContinue
  | Abort
deriving DecidableEq, Repr

/-- Lines 329-354 (identically 417-442 for audio): evaluate one attempt.
Success requires exit code 0 and no mid-stream kill, and then returns the
resolved artifacts (possibly the empty list).  Otherwise, at attempt 0 on
YouTube a privacy phrase continues without the gate; a hard-block phrase with
retries remaining invokes the gate and continues; anything else aborts. -/
def evalAttempt (exts : List String) (platform : Platform) (maxRetries attempt : Nat)
    (existing : List MediaFile) (run : AttemptRun) : NextAction :=
  let killed := (processStream run.lines).killed
  let output := capturedOutput run
  if run.exitCode == 0 && !killed then
    NextAction.ReturnFiles ((resolveArtifacts existing run.currentFiles exts).map (fun f => f.name))
  else if attempt == 0 && platform == Platform.YouTube && privacyHit output then
    NextAction.ContinueNoGate
  else if hardBlockHit output then
    if attempt < maxRetries then NextAction.GateThenContinue else NextAction.Abort
  else NextAction.Abort

/-- What one subtitle attempt observes: emitted lines, exit status, and the
files matching the subtitle glob patterns afterwards. -/
structure SubtitleRun where
  lines : List String
  exitCode : Int
  foundSubs : List MediaFile
deriving DecidableEq, Repr

/-- `max(subtitle_files, key=mtime)` of line 517: first maximal element. -/
def latestOf : List MediaFile → Option MediaFile
  | [] => none
  | f :: fs => some (fs.foldl (fun acc x => if acc.mtime < x.mtime then x else acc) f)

/-- The decision taken after one attempt of the subtitle loop. -/
inductive SubNext
  | ReturnSub (path : String)
  | SContinueNoGate
  | SGate
  | SAbort
deriving DecidableEq, Repr

/-- Lines 512-533: the subtitle attempt returns a file only when the exit code
is 0, no mid-stream kill happened and a matching file exists; in every other
case (including a clean exit with no matching files) it falls through to the
same error handling as the other paths. -/
def evalSubtitleAttempt (platform : Platform) (maxRetries attempt : Nat)
    (run : SubtitleRun) : SubNext :=
  let killed := (processStream run.lines).killed
  let output := String.join (processStream run.lines).captured
  let successFile : Option MediaFile :=
    if run.exitCode == 0 && !killed then latestOf run.foundSubs else none
  match successFile with
  | some f => SubNext.ReturnSub f.name
  | none =>
    if attempt == 0 && platform == Platform.YouTube && privacyHit output then
      SubNext.SContinueNoGate
    else if hardBlockHit output then
      if attempt < maxRetries then SubNext.SGate else SubNext.SAbort
    else SubNext.SAbort

/-- The outcome of a whole goal: the value the Python function returns
(`files`), plus ghost observations of the run — how many times
`handle_manual_intervention` was invoked and whether the loop ended through
the success branch. -/
structure GoalResult where
  files : List String
  gateCalls : Nat
  succeeded : Bool
deriving DecidableEq, Repr

/-- The retry loop of lines 284-358: `for attempt in range(max_retries + 1)`,
with `fuel` the number of iterations left. -/
def runFrom (exts : List String) (platform : Platform) (maxRetries : Nat)
    (existing : List MediaFile) (runs : Nat → AttemptRun) :
    Nat → Nat → Nat → GoalResult
  | _, 0, gates => { files := [], gateCalls := gates, succeeded := false }
  | attempt, fuel + 1, gates =>
    match evalAttempt exts platform maxRetries attempt existing (runs attempt) with
    | NextAction.ReturnFiles fs => { files := fs, gateCalls := gates, succeeded := true }
    | NextAction.ContinueNoGate =>
        runFrom exts platform maxRetries existing runs (attempt + 1) fuel gates
    | NextAction.GateThenContinue =>
        runFrom exts platform maxRetries existing runs (attempt + 1) fuel (gates + 1)
    | NextAction.Abort => { files := [], gateCalls := gates, succeeded := false }

/-- `download_video_direct` (lines 270-358): max_retries = 10, so the loop body
runs for attempts 0..10 (11 iterations). -/
def download_video_direct (platform : Platform) (existing : List MediaFile)
    (runs : Nat → AttemptRun) : GoalResult :=
  runFrom video_exts platform 10 existing runs 0 11 0

/-- `download_audio_direct` (lines 360-446): same loop with the mp3 filter. -/
def download_audio_direct (platform : Platform) (existing : List MediaFile)
    (runs : Nat → AttemptRun) : GoalResult :=
  runFrom audio_exts platform 10 existing runs 0 11 0

/-- The profile pool's state: the discovered profiles and the rotation cursor
(`CHROMIUM_PROFILES`, `CURRENT_PROFILE_INDEX`). -/
structure PoolState where
  profiles : List String
  index : Nat
deriving DecidableEq, Repr

/-- Side effect of the pool on the filesystem. -/
inductive PoolEffect
  | mkDirs (path : String)
deriving DecidableEq, Repr

/-- `get_next_chromium_profile` (lines 163-171): on an empty pool, return the
default profile directory after provisioning its `Default` subdirectory,
leaving the cursor untouched; otherwise return the profile at the cursor and
advance the cursor modulo the pool size. -/
def get_next_chromium_profile (home : String) (s : PoolState) :
    String × PoolState × List PoolEffect :=
  if s.profiles.isEmpty then
    let d := home ++ "/chromium_data_1"
    (d, s, [PoolEffect.mkDirs (d ++ "/Default")])
  else
    (s.profiles.getD s.index "",
     { s with index := (s.index + 1) % s.profiles.length },
     [])

/-- The sequence of profiles produced by `n` successive calls to
`get_next_chromium_profile`. -/
def poolStream (home : String) (s : PoolState) : Nat → List String
  | 0 => []
  | n + 1 =>
    let r := get_next_chromium_profile home s
    r.1 :: poolStream home r.2.1 n

/-- The persisted cookie store of one candidate location, as the code can
observe it: absent, present but empty, present but unreadable/corrupt, or
readable with a list of `host_key` values. -/
inductive CookieStore
  | missing
  | zeroSize
  | corrupt
  | ok (hostKeys : List String)

/-- Lines 228-231: the store consulted — the `chromium/Default/Cookies` file
unless it is missing or zero-size, in which case the `Default/Cookies`
fallback, and none at all if the fallback is missing. -/
def chosenStore (primary fallb : CookieStore) : Option CookieStore :=
  match primary with
  | CookieStore.missing =>
    (match fallb with
     | CookieStore.missing => none
     | s => some s)
  | CookieStore.zeroSize =>
    (match fallb with
     | CookieStore.missing => none
     | s => some s)
  | s => some s

/-- `analyze_profile_cookies` (lines 225-244): query the chosen store for a
cookie whose host key contains the platform domain; any failure to open or
query the store (missing, zero-size, corrupt) is swallowed by the bare
`except` and leaves both flags false. -/
def analyze_profile_cookies (primary fallb : CookieStore) : Bool × Bool :=
  match chosenStore primary fallb with
  | none => (false, false)
  | some (CookieStore.ok hostKeys) =>
    (hostKeys.any (fun h => strContains h "youtube.com"),
     hostKeys.any (fun h => strContains h "tiktok.com"))
  | some _ => (false, false)

/-- The domain the cookie query filters on, per platform. -/
def domainOf : Platform → String
  | Platform.YouTube => "youtube.com"
  | Platform.TikTok => "tiktok.com"
  | Platform.Desconocida => ""

/-- `platforms.get(platform, {}).get('has_cookies', False)` of line 250. -/
def hasCookiesFor (platform : Platform) (r : Bool × Bool) : Bool :=
  match platform with
  | Platform.YouTube => r.1
  | Platform.TikTok => r.2
  | Platform.Desconocida => false

/-- `verify_platform_cookies` (lines 246-252): false on an empty pool,
otherwise true iff some profile's analysis has cookies for the platform. -/
def verify_platform_cookies (platform : Platform)
    (pool : List (CookieStore × CookieStore)) : Bool :=
  if pool.isEmpty then false
  else pool.any (fun p => hasCookiesFor platform (analyze_profile_cookies p.1 p.2))

/-! ## Theorems -/

/-- Claim C3 counterexample: the line
"error: rate-limited by youtube captcha" contains the error marker together
with a block phrase, yet the code's rate-limit check (line 315) runs first and
fires too, so the single-signal classification of the line is `RateLimited`,
not `HardBlocked` — the claim's clauses overlap and cannot all hold. -/
theorem C3_counterexample :
    isRateLimitLine "error: rate-limited by youtube captcha" = true ∧
    isHardBlockLine "error: rate-limited by youtube captcha" = true ∧
    classify "error: rate-limited by youtube captcha" ≠ ClassificationSignal.HardBlocked := by
  refine ⟨by decide, by decide, by decide⟩

/-- Claim C3 (amended): classification is by case-insensitive substring match;
a line containing the rate-limit phrase is classified `RateLimited`; a line
free of the rate-limit phrase that contains the error marker plus a block
phrase is classified `HardBlocked`; a line matching neither is `Normal`. -/
theorem C3_classify_cases (line : String) :
    (isRateLimitLine line = true → classify line = ClassificationSignal.RateLimited) ∧
    (isRateLimitLine line = false → isHardBlockLine line = true →
      classify line = ClassificationSignal.HardBlocked) ∧
    (isRateLimitLine line = false → isHardBlockLine line = false →
      classify line = ClassificationSignal.Normal) := by
  refine ⟨fun h => ?_, fun h1 h2 => ?_, fun h1 h2 => ?_⟩
  · simp [classify, h]
  · simp [classify, h1, h2]
  · simp [classify, h1, h2]

/-- Claim C3 witness: a concrete upper-case hard-block line is classified
`HardBlocked`, via the amended theorem. -/
theorem C3_witness :
    classify "ERROR: CAPTCHA detected" = ClassificationSignal.HardBlocked :=
  (C3_classify_cases "ERROR: CAPTCHA detected").2.1 rfl rfl

/-- Claim C4: TikTok uses credentials on every attempt; YouTube uses
credentials exactly when `attempt > 0`; a credentialed YouTube invocation gets
the downgraded tv client argument and an anonymous one gets the android/tv
client argument. -/
theorem C4_credential_policy (attempt : Nat) (profile : String) :
    (planCredentials Platform.TikTok attempt profile).useCookies = true ∧
    ((planCredentials Platform.YouTube attempt profile).useCookies = true ↔ 0 < attempt) ∧
    (0 < attempt →
      (planCredentials Platform.YouTube attempt profile).clientArgs =
        some "youtube:player_client=tv_downgraded,web") ∧
    (attempt = 0 →
      (planCredentials Platform.YouTube attempt profile).clientArgs =
        some "youtube:player_client=android,tv") := by
  refine ⟨?_, ?_, ?_, ?_⟩
  · simp [planCredentials]
  · by_cases h : 0 < attempt <;> simp [planCredentials, h]
  · intro h; simp [planCredentials, h]
  · intro h; subst h; simp [planCredentials]

/-- Claim C4 witness: the policy evaluated at attempts 0 and 1 on both
platforms. -/
theorem C4_witness :
    (planCredentials Platform.TikTok 0 "/home/u/chromium_data_1").useCookies = true ∧
    (planCredentials Platform.YouTube 1 "/home/u/chromium_data_1").useCookies = true ∧
    (planCredentials Platform.YouTube 1 "/home/u/chromium_data_1").clientArgs =
      some "youtube:player_client=tv_downgraded,web" ∧
    (planCredentials Platform.YouTube 0 "/home/u/chromium_data_1").clientArgs =
      some "youtube:player_client=android,tv" :=
  ⟨(C4_credential_policy 0 "/home/u/chromium_data_1").1,
   (C4_credential_policy 1 "/home/u/chromium_data_1").2.1.mpr (by decide),
   (C4_credential_policy 1 "/home/u/chromium_data_1").2.2.1 (by decide),
   (C4_credential_policy 0 "/home/u/chromium_data_1").2.2.2 rfl⟩

/-- Round-robin behaviour of the profile pool from any in-range cursor. -/
lemma poolStream_roundRobin (home : String) (l : List String) (hne : l ≠ []) :
    ∀ (n idx : Nat), idx < l.length →
      poolStream home { profiles := l, index := idx } n =
        (List.range n).map (fun k => l.getD ((idx + k) % l.length) "") := by
  intro n
  induction n with
  | zero => intro idx _; simp [poolStream]
  | succ n ih =>
    intro idx hidx
    have hlen : 0 < l.length := List.length_pos.mpr hne
    have hne' : l.isEmpty = false := by
      cases l with
      | nil => exact absurd rfl hne
      | cons a t => rfl
    have hstep :
        poolStream home { profiles := l, index := idx } (n + 1) =
          l.getD idx "" ::
            poolStream home { profiles := l, index := (idx + 1) % l.length } n := by
      simp [poolStream, get_next_chromium_profile, hne']
    rw [hstep, ih ((idx + 1) % l.length) (Nat.mod_lt _ hlen), List.range_succ_eq_map]
    simp only [List.map_cons, List.map_map]
    congr 1
    · rw [Nat.add_zero, Nat.mod_eq_of_lt hidx]
    · apply List.map_congr_left
      intro k _
      have h3 : idx + 1 + k = idx + (k + 1) := by omega
      simp only [Function.comp_apply]
      rw [Nat.mod_add_mod, h3]

/-- Claim C9: on a pool of three profiles the successive calls to
`get_next_chromium_profile` return the profiles in round-robin order, wrapping
the cursor; on an empty pool the call synthesizes the default profile
directory, provisions its backing storage, leaves the state unchanged and
always returns. -/
theorem C9_credential_pool (home i0 i1 i2 : String) (n : Nat) :
    (poolStream home { profiles := [i0, i1, i2], index := 0 } n =
      (List.range n).map (fun k => [i0, i1, i2].getD (k % 3) "")) ∧
    (∀ s : PoolState, s.profiles = [] →
      get_next_chromium_profile home s =
        (home ++ "/chromium_data_1", s,
         [PoolEffect.mkDirs (home ++ "/chromium_data_1" ++ "/Default")])) := by
  constructor
  · have h := poolStream_roundRobin home [i0, i1, i2] (by simp) n 0 (by simp)
    simpa using h
  · intro s hs
    have : s.profiles.isEmpty = true := by rw [hs]; rfl
    simp [get_next_chromium_profile, this]

/-- Claim C9 witness: six calls on the pool `[I0, I1, I2]` produce
`[I0, I1, I2, I0, I1, I2]`, and a call on an empty pool yields the default
identity with its provisioning effect. -/
theorem C9_witness :
    poolStream "/home/u" { profiles := ["I0", "I1", "I2"], index := 0 } 6 =
      ["I0", "I1", "I2", "I0", "I1", "I2"] ∧
    get_next_chromium_profile "/home/u" { profiles := [], index := 0 } =
      ("/home/u/chromium_data_1", { profiles := [], index := 0 },
       [PoolEffect.mkDirs "/home/u/chromium_data_1/Default"]) := by
  constructor
  · rw [(C9_credential_pool "/home/u" "I0" "I1" "I2" 6).1]
    rfl
  · rw [(C9_credential_pool "/home/u" "I0" "I1" "I2" 6).2 { profiles := [], index := 0 } rfl]
    rfl

/-- Claim C10: the cookie inspector reports a platform as having cookies only
when the consulted store is readable and holds a host key containing the
platform's domain; when neither candidate store is readable (missing, corrupt
or zero-size) the analysis is all-false; the check over a pool is false on an
empty pool and true only via some profile's analysis — and every case returns
a value (the embedding is total, mirroring the bare `except` that swallows
store errors). -/
theorem C10_cookie_inspector (primary fallb : CookieStore) (platform : Platform)
    (pool : List (CookieStore × CookieStore)) :
    (hasCookiesFor platform (analyze_profile_cookies primary fallb) = true →
      ∃ hostKeys, chosenStore primary fallb = some (CookieStore.ok hostKeys) ∧
        ∃ h ∈ hostKeys, strContains h (domainOf platform) = true) ∧
    ((∀ cs, primary ≠ CookieStore.ok cs) → (∀ cs, fallb ≠ CookieStore.ok cs) →
      analyze_profile_cookies primary fallb = (false, false)) ∧
    (verify_platform_cookies platform [] = false) ∧
    (verify_platform_cookies platform pool = true →
      ∃ p ∈ pool, hasCookiesFor platform (analyze_profile_cookies p.1 p.2) = true) := by
  refine ⟨?_, ?_, ?_, ?_⟩
  · intro hv
    cases hc : chosenStore primary fallb with
    | none =>
      rw [analyze_profile_cookies, hc] at hv
      cases platform <;> simp [hasCookiesFor] at hv
    | some s =>
      cases s with
      | ok hostKeys =>
        refine ⟨hostKeys, rfl, ?_⟩
        rw [analyze_profile_cookies, hc] at hv
        cases platform with
        | YouTube => simpa [hasCookiesFor, domainOf, List.any_eq_true] using hv
        | TikTok => simpa [hasCookiesFor, domainOf, List.any_eq_true] using hv
        | Desconocida => simp [hasCookiesFor] at hv
      | missing =>
        rw [analyze_profile_cookies, hc] at hv
        cases platform <;> simp [hasCookiesFor] at hv
      | zeroSize =>
        rw [analyze_profile_cookies, hc] at hv
        cases platform <;> simp [hasCookiesFor] at hv
      | corrupt =>
        rw [analyze_profile_cookies, hc] at hv
        cases platform <;> simp [hasCookiesFor] at hv
  · intro h1 h2
    cases primary <;> cases fallb <;>
      first
        | rfl
        | exact absurd rfl (h1 _)
        | exact absurd rfl (h2 _)
  · rfl
  · intro hv
    by_cases hp : pool.isEmpty
    · rw [verify_platform_cookies, if_pos hp] at hv; cases hv
    · rw [verify_platform_cookies, if_neg hp] at hv
      simpa [List.any_eq_true] using hv

/-- Claim C10 witness: a profile whose primary store is missing and whose
fallback store is corrupt analyzes to all-false, and the pool check on an
empty pool is false. -/
theorem C10_witness :
    analyze_profile_cookies CookieStore.missing CookieStore.corrupt = (false, false) ∧
    verify_platform_cookies Platform.YouTube [] = false :=
  ⟨(C10_cookie_inspector CookieStore.missing CookieStore.corrupt Platform.YouTube []).2.1
      (fun _ h => CookieStore.noConfusion h) (fun _ h => CookieStore.noConfusion h),
   (C10_cookie_inspector CookieStore.missing CookieStore.corrupt Platform.YouTube []).2.2.1⟩

/-- Appending the events of a non-blocking line to a trace prepends exactly
one read of that line. -/
lemma readsOf_lineEvents (x : String) (t : List StreamEvent) :
    readsOf (lineEvents x ++ t) = x :: readsOf t := by
  by_cases h : isRateLimitLine x <;> simp [lineEvents, readsOf, h]

/-- The events of one line contain no termination request, so they do not
affect the no-read-after-terminate property. -/
lemma noReadAfterTerminate_lineEvents (x : String) (t : List StreamEvent) :
    noReadAfterTerminate (lineEvents x ++ t) = noReadAfterTerminate t := by
  by_cases h : isRateLimitLine x <;> simp [lineEvents, h, noReadAfterTerminate]

/-- Claim C6: when the stream contains a hard-block line, the loop reads
exactly the lines up to and including it, requests termination, and reads no
line from the rest of the stream after the termination request. -/
theorem C6_terminate_before_further_reads (pre post : List String) (l : String)
    (hpre : ∀ x ∈ pre, isHardBlockLine x = false) (hl : isHardBlockLine l = true) :
    (processStream (pre ++ l :: post)).captured = pre ++ [l] ∧
    (processStream (pre ++ l :: post)).killed = true ∧
    readsOf (processStream (pre ++ l :: post)).trace = pre ++ [l] ∧
    noReadAfterTerminate (processStream (pre ++ l :: post)).trace = true ∧
    StreamEvent.Terminate ∈ (processStream (pre ++ l :: post)).trace := by
  induction pre with
  | nil =>
    have hps : processStream ([] ++ l :: post) =
        { captured := [l], killed := true,
          trace := lineEvents l ++ [StreamEvent.Terminate] } := by
      simp [processStream, hl]
    rw [hps]
    refine ⟨rfl, rfl, ?_, ?_, ?_⟩
    · rw [readsOf_lineEvents]
      rfl
    · rw [noReadAfterTerminate_lineEvents]
      rfl
    · exact List.mem_append.mpr (Or.inr (by simp))
  | cons x xs ih =>
    have hx : isHardBlockLine x = false := hpre x (by simp)
    obtain ⟨h1, h2, h3, h4, h5⟩ := ih (fun y hy => hpre y (by simp [hy]))
    refine ⟨?_, ?_, ?_, ?_, ?_⟩
    · simp [processStream, hx, h1]
    · simp [processStream, hx, h2]
    · simp [processStream, hx, readsOf_lineEvents, h3]
    · simp [processStream, hx, noReadAfterTerminate_lineEvents, h4]
    · simp only [List.cons_append, processStream, hx, Bool.false_eq_true, if_false]
      exact List.mem_append.mpr (Or.inr h5)

/-- Claim C6 witness: a concrete stream with one normal line, then a
hard-block line, then a leftover line the child would still have emitted. -/
theorem C6_witness :
    (processStream ["downloading 1%", "error: not a bot", "leftover line"]).captured =
      ["downloading 1%", "error: not a bot"] ∧
    (processStream ["downloading 1%", "error: not a bot", "leftover line"]).killed = true ∧
    readsOf (processStream ["downloading 1%", "error: not a bot", "leftover line"]).trace =
      ["downloading 1%", "error: not a bot"] ∧
    noReadAfterTerminate
      (processStream ["downloading 1%", "error: not a bot", "leftover line"]).trace = true ∧
    StreamEvent.Terminate ∈
      (processStream ["downloading 1%", "error: not a bot", "leftover line"]).trace := by
  have h := C6_terminate_before_further_reads ["downloading 1%"] ["leftover line"]
    "error: not a bot" (by decide) (by decide)
  simpa using h

/-- Claim C1: in the video/audio attempt evaluation and in the subtitle
attempt evaluation alike, an attempt whose exit status is non-zero or during
which the hard-block flag was raised never takes the success return — in
particular a zero exit code with a mid-stream hard-block is not a success. -/
theorem C1_success_requires_zero_exit_and_no_block
    (exts : List String) (platform : Platform) (maxRetries attempt : Nat)
    (existing : List MediaFile) (run : AttemptRun) (srun : SubtitleRun)
    (hrun : run.exitCode ≠ 0 ∨ (processStream run.lines).killed = true)
    (hsrun : srun.exitCode ≠ 0 ∨ (processStream srun.lines).killed = true) :
    (∀ fs, evalAttempt exts platform maxRetries attempt existing run ≠
      NextAction.ReturnFiles fs) ∧
    (∀ p, evalSubtitleAttempt platform maxRetries attempt srun ≠ SubNext.ReturnSub p) := by
  have hc : (run.exitCode == 0 && !(processStream run.lines).killed) = false := by
    rcases hrun with h | h
    · simp [h]
    · simp [h]
  have hcs : (srun.exitCode == 0 && !(processStream srun.lines).killed) = false := by
    rcases hsrun with h | h
    · simp [h]
    · simp [h]
  constructor
  · intro fs h
    simp only [evalAttempt, hc, Bool.false_eq_true, if_false] at h
    split at h
    · cases h
    · split at h
      · split at h <;> cases h
      · cases h
  · intro p h
    simp only [evalSubtitleAttempt, hcs, Bool.false_eq_true, if_false] at h
    split at h
    · cases h
    · split at h
      · split at h <;> cases h
      · cases h

/-- Claim C1 witness: attempts that exit with status 0 and produce new
matching files, but raised the hard-block flag mid-stream, are not successes
in either the video/audio shape or the subtitle shape. -/
theorem C1_witness :
    evalAttempt video_exts Platform.YouTube 10 0 []
      { lines := ["error: captcha"], exitCode := 0,
        currentFiles := [{ name := "clip.mp4", mtime := 7 }] } ≠
      NextAction.ReturnFiles ["clip.mp4"] ∧
    evalSubtitleAttempt Platform.YouTube 10 0
      { lines := ["error: captcha"], exitCode := 0,
        foundSubs := [{ name := "clip.es.srt", mtime := 7 }] } ≠
      SubNext.ReturnSub "clip.es.srt" := by
  have h := C1_success_requires_zero_exit_and_no_block video_exts Platform.YouTube 10 0 []
    { lines := ["error: captcha"], exitCode := 0,
      currentFiles := [{ name := "clip.mp4", mtime := 7 }] }
    { lines := ["error: captcha"], exitCode := 0,
      foundSubs := [{ name := "clip.es.srt", mtime := 7 }] }
    (Or.inr (by decide)) (Or.inr (by decide))
  exact ⟨h.1 ["clip.mp4"], h.2 "clip.es.srt"⟩

/-- Claim C5: when attempt 0 on YouTube fails and the captured output contains
a privacy/login/age-restriction phrase, the supervisor continues to the next
attempt without invoking the Human-Intervention Gate — and this early exit is
attempt-0-only: the same failing output with a hard-block phrase at a later
attempt (with retries left) does invoke the gate. -/
theorem C5_privacy_early_exit (exts : List String) (maxRetries : Nat)
    (existing : List MediaFile) (run : AttemptRun)
    (hfail : run.exitCode ≠ 0 ∨ (processStream run.lines).killed = true)
    (hpriv : privacyHit (capturedOutput run) = true) :
    evalAttempt exts Platform.YouTube maxRetries 0 existing run =
      NextAction.ContinueNoGate ∧
    (∀ a, 0 < a → a < maxRetries → hardBlockHit (capturedOutput run) = true →
      evalAttempt exts Platform.YouTube maxRetries a existing run =
        NextAction.GateThenContinue) := by
  have hc : (run.exitCode == 0 && !(processStream run.lines).killed) = false := by
    rcases hfail with h | h
    · simp [h]
    · simp [h]
  constructor
  · simp [evalAttempt, hc, hpriv]
  · intro a ha hlt hhb
    have ha0 : (a == 0) = false := by
      simp [Nat.pos_iff_ne_zero.mp ha]
    simp [evalAttempt, hc, ha0, hhb, hlt]

/-- Claim C5 witness: an audio attempt 0 on YouTube failing with output
containing "sign in to confirm" continues without the gate; the same output at
attempt 1 invokes the gate. -/
theorem C5_witness :
    evalAttempt audio_exts Platform.YouTube 10 0 []
      { lines := ["ERROR: Sign in to confirm your age"], exitCode := 1, currentFiles := [] } =
      NextAction.ContinueNoGate ∧
    evalAttempt audio_exts Platform.YouTube 10 1 []
      { lines := ["ERROR: Sign in to confirm your age"], exitCode := 1, currentFiles := [] } =
      NextAction.GateThenContinue := by
  have h := C5_privacy_early_exit audio_exts 10 []
    { lines := ["ERROR: Sign in to confirm your age"], exitCode := 1, currentFiles := [] }
    (Or.inl (by decide)) (by decide)
  exact ⟨h.1, h.2 1 (by decide) (by decide) (by decide)⟩

/-- Claim C7: artifact resolution returns exactly the files of the current
snapshot whose path is not in the baseline snapshot and whose lowercased
extension is in the filter — pre-existing paths never count — sorted by
modification time ascending; and an attempt that exits 0 without a mid-stream
kill but resolves no new matching file returns the success action with an
empty artifact list, not a failure. -/
theorem C7_artifact_resolution (existing current : List MediaFile) (exts : List String) :
    (∀ f, f ∈ resolveArtifacts existing current exts ↔
      f ∈ current ∧ (existing.map (fun g => g.name)).contains f.name = false ∧
        exts.contains (lowerStr (suffixOf f.name)) = true) ∧
    List.Sorted mtimeLE (resolveArtifacts existing current exts) ∧
    (∀ (run : AttemptRun) (platform : Platform) (maxRetries attempt : Nat),
      run.exitCode = 0 → (processStream run.lines).killed = false →
      resolveArtifacts existing run.currentFiles exts = [] →
      evalAttempt exts platform maxRetries attempt existing run =
        NextAction.ReturnFiles []) := by
  refine ⟨?_, ?_, ?_⟩
  · intro f
    unfold resolveArtifacts
    rw [(List.perm_insertionSort mtimeLE _).mem_iff]
    simp [List.mem_filter, Bool.not_eq_true', and_assoc]
    intro _
    exact and_comm
  · exact List.sorted_insertionSort mtimeLE _
  · intro run platform maxRetries attempt hexit hkill hres
    simp [evalAttempt, hexit, hkill, hres]

/-- The baseline snapshot of the spec's round-trip example. -/
def baselineSnapshot : List MediaFile := [{ name := "a.txt", mtime := 0 }]

/-- The directory contents after the attempt in the round-trip example. -/
def afterSnapshot : List MediaFile :=
  [{ name := "a.txt", mtime := 0 }, { name := "b.mp3", mtime := 2 },
   { name := "c.mp3", mtime := 1 }]

/-- An attempt that exits cleanly but creates no new file. -/
def cleanEmptyRun : AttemptRun :=
  { lines := ["[download] nothing to do"], exitCode := 0,
    currentFiles := [{ name := "a.txt", mtime := 0 }] }

/-- Claim C7 witness: the round-trip example resolves to the two new mp3
files ordered by modification time, and a clean empty attempt returns the
empty success. -/
theorem C7_witness :
    (({ name := "c.mp3", mtime := 1 } : MediaFile) ∈
      resolveArtifacts baselineSnapshot afterSnapshot audio_exts) ∧
    List.Sorted mtimeLE (resolveArtifacts baselineSnapshot afterSnapshot audio_exts) ∧
    resolveArtifacts baselineSnapshot afterSnapshot audio_exts =
      [{ name := "c.mp3", mtime := 1 }, { name := "b.mp3", mtime := 2 }] ∧
    evalAttempt audio_exts Platform.YouTube 10 0 baselineSnapshot cleanEmptyRun =
      NextAction.ReturnFiles [] := by
  refine ⟨?_, (C7_artifact_resolution baselineSnapshot afterSnapshot audio_exts).2.1,
    by decide, ?_⟩
  · exact ((C7_artifact_resolution baselineSnapshot afterSnapshot audio_exts).1
      { name := "c.mp3", mtime := 1 }).mpr (by decide)
  · exact (C7_artifact_resolution baselineSnapshot afterSnapshot audio_exts).2.2
      cleanEmptyRun Platform.YouTube 10 0 rfl (by decide) (by decide)

/-- An attempt hard-blocked mid-stream (the child is terminated). -/
def blockedRun : AttemptRun :=
  { lines := ["error: captcha"], exitCode := -15, currentFiles := [] }

/-- An attempt that succeeds and produces one new video file. -/
def successRun : AttemptRun :=
  { lines := ["[download] Destination: downloads/video.mp4"], exitCode := 0,
    currentFiles := [{ name := "video.mp4", mtime := 5 }] }

/-- Ten hard-blocked attempts followed by a successful one. -/
def tenBlockedThenSuccess : Nat → AttemptRun :=
  fun a => if a < 10 then blockedRun else successRun

/-- Claim C2 counterexample: attempts 0..9 — ten consecutive attempts — are
all hard-blocked, yet the goal does not end in the Failed state: the loop runs
an eleventh attempt (attempt 10, since the loop is
`for attempt in range(max_retries + 1)` with `max_retries = 10`), which here
succeeds.  The gate was indeed invoked ten times, but the final state is
success. -/
theorem C2_counterexample :
    ((List.range 10).all
      (fun a => (processStream (tenBlockedThenSuccess a).lines).killed)) = true ∧
    (download_video_direct Platform.YouTube [] tenBlockedThenSuccess).gateCalls = 10 ∧
    (download_video_direct Platform.YouTube [] tenBlockedThenSuccess).succeeded = true ∧
    (download_video_direct Platform.YouTube [] tenBlockedThenSuccess).files =
      ["video.mp4"] := by
  refine ⟨by decide, by decide, by decide, by decide⟩

/-- Claim C2 (amended): when every attempt of the goal is hard-blocked, the
loop runs all eleven attempts (0..10), ends in the Failed state with an empty
result, and `handle_manual_intervention` is invoked exactly ten times — once
after each of attempts 0..9, and not after the final attempt, whose
`attempt < max_retries` guard fails. -/
theorem C2_all_blocked_failed_ten_gate_calls :
    download_video_direct Platform.YouTube [] (fun _ => blockedRun) =
      { files := [], gateCalls := 10, succeeded := false } := by
  decide

/-- An attempt that fails with output matching no known phrase (fatal). -/
def fatalRun : AttemptRun :=
  { lines := ["error: unable to download video data"], exitCode := 1, currentFiles := [] }

/-- Claim C8: the value `download_video_direct` / `download_audio_direct`
returns (the `files` list) is the empty list both for a goal that ends through
the success branch with zero new matching files and for a goal that aborts on
a fatal error, so the caller cannot distinguish the two from the returned
value alone. -/
theorem C8_return_conflates_failure_and_empty_success :
    (download_video_direct Platform.YouTube baselineSnapshot (fun _ => cleanEmptyRun)).files
      = [] ∧
    (download_video_direct Platform.YouTube baselineSnapshot
      (fun _ => cleanEmptyRun)).succeeded = true ∧
    (download_video_direct Platform.YouTube baselineSnapshot (fun _ => fatalRun)).files
      = [] ∧
    (download_video_direct Platform.YouTube baselineSnapshot
      (fun _ => fatalRun)).succeeded = false ∧
    (download_audio_direct Platform.YouTube baselineSnapshot (fun _ => cleanEmptyRun)).files
      = [] ∧
    (download_audio_direct Platform.YouTube baselineSnapshot
      (fun _ => cleanEmptyRun)).succeeded = true ∧
    (download_audio_direct Platform.YouTube baselineSnapshot (fun _ => fatalRun)).files
      = [] ∧
    (download_audio_direct Platform.YouTube baselineSnapshot
      (fun _ => fatalRun)).succeeded = false := by
  refine ⟨by decide, by decide, by decide, by decide, by decide, by decide, by decide,
    by decide⟩
